import Mathlib

/-!
Shallow embedding of the DNS-blast job adapter (`src/jobs/dnsblast.go`) and the
raw-connection/restart utilities (`src/utils/ota/restart.go`, `packetgen`) of
the DDoS1000n repository, together with theorems checking the natural-language
specification against the embedded code.
-/

/-- Go errors as produced by `errors.New` (a base message) and `fmt.Errorf`
with the `%w` verb (a message wrapping a cause). -/
inductive GoError where
  | base (msg : String)
  | wrap (msg : String) (cause : GoError)
deriving DecidableEq, Repr

namespace dnsblast

/-- Modelled from the spec: the protocol-name constants live in the
`core/dnsblast` package, which is not under `src/`; the spec fixes the
recognized protocol strings as `udp`, `tcp`, `tcp-tls`, matching the comment
on the `protocol` field in `src/jobs/dnsblast.go`. -/
def UDPProtoName : String := "udp"

/-- Modelled from the spec: the TCP protocol-name constant of `core/dnsblast`. -/
def TCPProtoName : String := "tcp"

/-- Modelled from the spec: the TCP-over-TLS protocol-name constant of
`core/dnsblast`. -/
def TCPTLSProtoName : String := "tcp-tls"

/-- The `dnsblast.Config` structure handed to `dnsblast.Start`
(`src/jobs/dnsblast.go`, lines 105-112). `Delay` is a Go `time.Duration`
counted in nanoseconds. -/
structure Config where
  RootDomain : String
  Protocol : String
  SeedDomains : List String
  ParallelQueries : Int
  Delay : Int
  ClientID : String
deriving DecidableEq, Repr

end dnsblast

namespace jobs

/-- Go `time.Millisecond` in nanoseconds. -/
def timeMillisecond : Int := 1000000

/-- `defaultProto` constant of `src/jobs/dnsblast.go` line 39. -/
def defaultProto : String := dnsblast.UDPProtoName

/-- `defaultParallelQueriesPerCycle` constant of `src/jobs/dnsblast.go` line 40. -/
def defaultParallelQueriesPerCycle : Int := 5

/-- `defaultIntervalInMS` constant of `src/jobs/dnsblast.go` line 41. -/
def defaultIntervalInMS : Int := 10

/-- Modelled from the spec: `BasicJobConfig` is declared in the `jobs`
package outside `src/`; the spec records that it carries at least the
inter-cycle interval in milliseconds (`interval_ms`).  Here it is flattened
into `dnsBlastConfig` the way Go struct embedding exposes `IntervalMs`. -/
structure dnsBlastConfig where
  IntervalMs : Int
  RootDomain : String
  Protocol : String
  SeedDomains : List String
  ParallelQueries : Int
deriving DecidableEq, Repr

/-- `GlobalConfig` as used by `dnsBlastJob`: only its `ClientID` field is
read (`src/jobs/dnsblast.go` line 111). -/
structure GlobalConfig where
  ClientID : String
deriving DecidableEq, Repr

/-- The observable outcome of one `dnsBlastJob` invocation: the `data`
return value, the `err` return value, and the `dnsblast.Config` passed to
`dnsblast.Start` when the engine was invoked (`none` when the job returned
before starting the engine, hence spawned zero workers). -/
structure JobReturn where
  data : Option Unit
  err : Option GoError
  engineCall : Option dnsblast.Config
deriving DecidableEq, Repr

/-- Shallow embedding of `dnsBlastJob` (`src/jobs/dnsblast.go` lines 52-117).
`utils.Decode` and `dnsblast.Start` are external to `src/`, so the decode
outcome and the engine are passed in: `decodeResult` is the result of
decoding `args` into `dnsBlastConfig`, and `start` is the engine call,
returning its error value.  The body mirrors the Go control flow: decode
check, root-domain check, seed-domains check, the protocol `switch`, the
parallelism and interval defaulting, then the engine invocation. -/
def dnsBlastJob (globalConfig : GlobalConfig)
    (decodeResult : Except GoError dnsBlastConfig)
    (start : dnsblast.Config → Option GoError) : JobReturn :=
  match decodeResult with
  | .error e =>
      { data := none
        err := some (.wrap "failed to parse DNS Blast job configurations" e)
        engineCall := none }
  | .ok jobConfig =>
    if jobConfig.RootDomain.length == 0 then
      { data := none
        err := some (.base "no root domain provided, consider adding it")
        engineCall := none }
    else if jobConfig.SeedDomains.length == 0 then
      { data := none
        err := some (.base "no seed domains provided, at least one is required")
        engineCall := none }
    else
      let isUDPProto := jobConfig.Protocol == dnsblast.UDPProtoName
      let isTCPProto := jobConfig.Protocol == dnsblast.TCPProtoName
      let isTCPTLSProto := jobConfig.Protocol == dnsblast.TCPTLSProtoName
      let protoStep : Except GoError dnsBlastConfig :=
        if jobConfig.Protocol == "" then
          .ok { jobConfig with Protocol := defaultProto }
        else if !(isUDPProto || !isTCPProto || !isTCPTLSProto) then
          .error (.base "unrecognized DNS protocol [provided], expected one of [[udp tcp tcp-tls]]")
        else
          .ok jobConfig
      match protoStep with
      | .error e => { data := none, err := some e, engineCall := none }
      | .ok jc1 =>
        let jc2 :=
          if jc1.ParallelQueries == 0 then
            { jc1 with ParallelQueries := defaultParallelQueriesPerCycle }
          else jc1
        let jc3 :=
          if jc2.IntervalMs == 0 then
            { jc2 with IntervalMs := defaultIntervalInMS }
          else jc2
        let engineConfig : dnsblast.Config :=
          { RootDomain := jc3.RootDomain
            Protocol := jc3.Protocol
            SeedDomains := jc3.SeedDomains
            ParallelQueries := jc3.ParallelQueries
            Delay := jc3.IntervalMs * timeMillisecond
            ClientID := globalConfig.ClientID }
        { data := none, err := start engineConfig, engineCall := some engineConfig }

end jobs

namespace packetgen

/-- `ConnectionConfig` of the `packetgen` package: network name and local
bind address. -/
structure ConnectionConfig where
  Name : String
  Address : String
deriving DecidableEq, Repr

/-- An abstract handle for the `net.PacketConn` returned by
`net.ListenPacket` (external to the repository); its contents are opaque to
`OpenRawConnection`, which only passes it along. -/
structure NetPacketConn where
  token : Nat
deriving DecidableEq, Repr

/-- The `*ipv6.PacketConn` produced by `golang.org/x/net/ipv6`: a wrapper
around the underlying packet connection, capable of both IPv4 and IPv6. -/
structure Ipv6PacketConn where
  conn : NetPacketConn
deriving DecidableEq, Repr

/-- `ipv6.NewPacketConn` (external library): wraps a packet connection in
the IPv6-capable packet interface. -/
def ipv6NewPacketConn (c : NetPacketConn) : Ipv6PacketConn := ⟨c⟩

/-- Shallow embedding of `OpenRawConnection` (`src/utils/ota/restart.go`,
packetgen part, lines 52-59).  `net.ListenPacket` is external, so it is
passed in as `listenPacket`, taking the network name and the address.  A Go
`(nil, err)` return is `Except.error err`; a `(conn, nil)` return is
`Except.ok conn`. -/
def OpenRawConnection (listenPacket : String → String → Except GoError NetPacketConn)
    (c : ConnectionConfig) : Except GoError Ipv6PacketConn :=
  match listenPacket c.Name c.Address with
  | .error e => .error e
  | .ok packetConn => .ok (ipv6NewPacketConn packetConn)

end packetgen

namespace ota

/-- Shallow embedding of `Restart` from the build-tagged file
`src/utils/ota/restart.go` (build constraint `!linux && !darwin && !windows`).
`runtime.GOOS` is passed in as `goos`; the Go variadic `extraArgs` is a list.
The function is a single `return fmt.Errorf(...)` with no side effect. -/
def Restart (goos : String) (extraArgs : List String) : Option GoError :=
  some (.base ("restart on the " ++ goos ++ " system is not available"))

end ota

/-! ## Theorems about the claims -/

/-- Auxiliary: a string has length zero exactly when it is the empty string
(the Go code tests `len(s) == 0` where the spec speaks of emptiness). -/
theorem string_length_eq_zero_iff (s : String) : s.length = 0 ↔ s = "" := by
  constructor
  · intro h
    cases s with
    | mk data =>
      simp only [String.length] at h
      simp [List.length_eq_zero] at h
      simp [h]
  · intro h
    simp [h]

/-- Claim C1 (refuted by the code): with root domain `example.test`, seed
domains `[a]` and the unrecognized non-empty protocol `bogus`, `dnsBlastJob`
does NOT return a configuration error: the rejection condition
`!(isUDPProto || !isTCPProto || !isTCPTLSProto)` can only hold when the
protocol equals both `tcp` and `tcp-tls`, which is impossible, so the switch
falls through and the engine is started with protocol `bogus` and a `nil`
error. -/
theorem dnsBlastJob_bogus_protocol_reaches_engine :
    jobs.dnsBlastJob ⟨"client"⟩
      (.ok { IntervalMs := 0, RootDomain := "example.test", Protocol := "bogus",
             SeedDomains := ["a"], ParallelQueries := 0 })
      (fun _ => none)
    = { data := none, err := none,
        engineCall := some { RootDomain := "example.test", Protocol := "bogus",
                             SeedDomains := ["a"], ParallelQueries := 5,
                             Delay := 10000000, ClientID := "client" } } := by
  rfl

/-- Claim C2: for every decoded configuration whose root domain is empty or
whose seed-domain list is empty, `dnsBlastJob` returns a non-nil error and
never invokes the engine (zero workers spawned). -/
theorem dnsBlastJob_missing_root_or_seeds_errors
    (gc : jobs.GlobalConfig) (jc : jobs.dnsBlastConfig)
    (start : dnsblast.Config → Option GoError)
    (h : jc.RootDomain = "" ∨ jc.SeedDomains = []) :
    ((jobs.dnsBlastJob gc (.ok jc) start).err.isSome = true) ∧
    (jobs.dnsBlastJob gc (.ok jc) start).engineCall = none := by
  rcases h with h | h
  · simp [jobs.dnsBlastJob, h]
  · by_cases hr : jc.RootDomain.length == 0
    · simp [jobs.dnsBlastJob, hr]
    · simp [jobs.dnsBlastJob, hr, h]

/-- Witness for C2 at a concrete input: with an empty root domain the job
errors out and the engine is never called. -/
theorem dnsBlastJob_missing_root_or_seeds_errors_witness :
    ((jobs.dnsBlastJob ⟨"client"⟩
        (.ok { IntervalMs := 0, RootDomain := "", Protocol := "udp",
               SeedDomains := ["a"], ParallelQueries := 0 })
        (fun _ => none)).err.isSome = true) ∧
    (jobs.dnsBlastJob ⟨"client"⟩
        (.ok { IntervalMs := 0, RootDomain := "", Protocol := "udp",
               SeedDomains := ["a"], ParallelQueries := 0 })
        (fun _ => none)).engineCall = none :=
  dnsBlastJob_missing_root_or_seeds_errors ⟨"client"⟩
    { IntervalMs := 0, RootDomain := "", Protocol := "udp",
      SeedDomains := ["a"], ParallelQueries := 0 }
    (fun _ => none) (Or.inl rfl)

/-- Claim C3 (refuted by the code): with `parallel_queries = -1` (negative)
and an otherwise valid configuration, the parallelism handed to the engine is
`-1`, not the default `5`: the code only tests `ParallelQueries == 0`. -/
theorem dnsBlastJob_negative_parallel_not_defaulted :
    (jobs.dnsBlastJob ⟨"client"⟩
      (.ok { IntervalMs := 0, RootDomain := "example.test", Protocol := "",
             SeedDomains := ["a"], ParallelQueries := -1 })
      (fun _ => none)).engineCall
    = some { RootDomain := "example.test", Protocol := "udp", SeedDomains := ["a"],
             ParallelQueries := -1, Delay := 10000000, ClientID := "client" } := by
  rfl

/-- Claim C3 as amended: only when `parallel_queries` is exactly zero is the
parallelism replaced by the default `5`; the engine is reached whenever root
domain and seed domains are non-empty (the protocol rejection branch is
unsatisfiable), and then receives parallelism `5`. -/
theorem dnsBlastJob_zero_parallel_defaulted
    (gc : jobs.GlobalConfig) (jc : jobs.dnsBlastConfig)
    (start : dnsblast.Config → Option GoError)
    (hr : jc.RootDomain ≠ "") (hs : jc.SeedDomains ≠ [])
    (hp : jc.ParallelQueries = 0) :
    ∃ ec : dnsblast.Config,
      (jobs.dnsBlastJob gc (.ok jc) start).engineCall = some ec ∧
      ec.ParallelQueries = 5 := by
  have hr' : ¬(jc.RootDomain.length == 0) = true := by
    simp [string_length_eq_zero_iff, hr]
  have hs' : ¬(jc.SeedDomains.length == 0) = true := by
    simp [List.length_eq_zero, hs]
  by_cases he : jc.Protocol == ""
  · simp [jobs.dnsBlastJob, hr', hs', he, hp, jobs.defaultParallelQueriesPerCycle]
    split <;> rfl
  · have himp : ¬(!(jc.Protocol == dnsblast.UDPProtoName
        || !(jc.Protocol == dnsblast.TCPProtoName)
        || !(jc.Protocol == dnsblast.TCPTLSProtoName))) = true := by
      by_cases h1 : jc.Protocol == dnsblast.TCPProtoName
      · have e1 : jc.Protocol = dnsblast.TCPProtoName := by
          exact eq_of_beq h1
        have h2 : ¬(jc.Protocol == dnsblast.TCPTLSProtoName) = true := by
          simp [e1, dnsblast.TCPProtoName, dnsblast.TCPTLSProtoName]
        simp [h2]
      · simp [h1]
    simp [jobs.dnsBlastJob, hr', hs', he, himp, hp,
      jobs.defaultParallelQueriesPerCycle]
    split <;> rfl

/-- Witness for the amended C3 at a concrete input with zero parallelism. -/
theorem dnsBlastJob_zero_parallel_defaulted_witness :
    ∃ ec : dnsblast.Config,
      (jobs.dnsBlastJob ⟨"client"⟩
        (.ok { IntervalMs := 0, RootDomain := "example.test", Protocol := "tcp",
               SeedDomains := ["a"], ParallelQueries := 0 })
        (fun _ => none)).engineCall = some ec ∧
      ec.ParallelQueries = 5 :=
  dnsBlastJob_zero_parallel_defaulted ⟨"client"⟩
    { IntervalMs := 0, RootDomain := "example.test", Protocol := "tcp",
      SeedDomains := ["a"], ParallelQueries := 0 }
    (fun _ => none) (by decide) (by decide) rfl

/-- Claim C4: with protocol, parallel_queries and interval_ms all unset (zero
values) and a valid root domain and seed list, the engine configuration built
by `dnsBlastJob` has protocol `udp`, parallelism `5` and delay 10 ms
(10 × 1000000 ns); in particular the delay after defaulting is non-zero. -/
theorem dnsBlastJob_all_unset_defaults
    (gc : jobs.GlobalConfig) (jc : jobs.dnsBlastConfig)
    (start : dnsblast.Config → Option GoError)
    (hr : jc.RootDomain ≠ "") (hs : jc.SeedDomains ≠ [])
    (hproto : jc.Protocol = "") (hp : jc.ParallelQueries = 0)
    (hi : jc.IntervalMs = 0) :
    (jobs.dnsBlastJob gc (.ok jc) start).engineCall =
      some { RootDomain := jc.RootDomain, Protocol := "udp",
             SeedDomains := jc.SeedDomains, ParallelQueries := 5,
             Delay := 10 * jobs.timeMillisecond, ClientID := gc.ClientID } ∧
    (10 * jobs.timeMillisecond : Int) ≠ 0 := by
  have hr' : ¬(jc.RootDomain.length == 0) = true := by
    simp [string_length_eq_zero_iff, hr]
  have hs' : ¬(jc.SeedDomains.length == 0) = true := by
    simp [List.length_eq_zero, hs]
  refine ⟨?_, by decide⟩
  simp [jobs.dnsBlastJob, hr', hs', hproto, hp, hi, jobs.defaultProto,
    dnsblast.UDPProtoName, jobs.defaultParallelQueriesPerCycle,
    jobs.defaultIntervalInMS, jobs.timeMillisecond]

/-- Witness for C4 at the spec's exemplar scenario: root target
`example.test`, seeds `[a, b]`, everything else unset. -/
theorem dnsBlastJob_all_unset_defaults_witness :
    (jobs.dnsBlastJob ⟨"cid"⟩
        (.ok { IntervalMs := 0, RootDomain := "example.test", Protocol := "",
               SeedDomains := ["a", "b"], ParallelQueries := 0 })
        (fun _ => none)).engineCall =
      some { RootDomain := "example.test", Protocol := "udp",
             SeedDomains := ["a", "b"], ParallelQueries := 5,
             Delay := 10 * jobs.timeMillisecond, ClientID := "cid" } ∧
    (10 * jobs.timeMillisecond : Int) ≠ 0 :=
  dnsBlastJob_all_unset_defaults ⟨"cid"⟩
    { IntervalMs := 0, RootDomain := "example.test", Protocol := "",
      SeedDomains := ["a", "b"], ParallelQueries := 0 }
    (fun _ => none) (by decide) (by decide) rfl rfl rfl

/-- Claim C5: when decoding the argument map fails, `dnsBlastJob` returns
immediately with `nil` data and an error wrapping the decode cause, and no
validation, defaulting or engine start happens (the engine is never called). -/
theorem dnsBlastJob_decode_failure (gc : jobs.GlobalConfig) (e : GoError)
    (start : dnsblast.Config → Option GoError) :
    jobs.dnsBlastJob gc (.error e) start =
      { data := none,
        err := some (.wrap "failed to parse DNS Blast job configurations" e),
        engineCall := none } := rfl

/-- Claim C6: `OpenRawConnection` returns a nil connection together with the
underlying OS/network error whenever `net.ListenPacket` fails, and it returns
an error exactly when the underlying open fails. -/
theorem OpenRawConnection_error_propagation
    (lp : String → String → Except GoError packetgen.NetPacketConn)
    (c : packetgen.ConnectionConfig) :
    (∀ e, lp c.Name c.Address = Except.error e →
        packetgen.OpenRawConnection lp c = Except.error e) ∧
    ((∃ e, packetgen.OpenRawConnection lp c = Except.error e) ↔
      (∃ e, lp c.Name c.Address = Except.error e)) := by
  cases h : lp c.Name c.Address with
  | error e =>
    refine ⟨?_, ?_⟩
    · intro e2 h2
      simp only [Except.error.injEq] at h2
      subst h2
      simp [packetgen.OpenRawConnection, h]
    · simp [packetgen.OpenRawConnection, h]
  | ok pc =>
    refine ⟨?_, ?_⟩
    · intro e2 h2
      simp at h2
    · simp [packetgen.OpenRawConnection, h]

/-- Witness for C6: with a listen failure (for example privilege denial on a
raw network), `OpenRawConnection` propagates the error and yields no
connection. -/
theorem OpenRawConnection_error_propagation_witness :
    packetgen.OpenRawConnection
        (fun _ _ => Except.error (GoError.base "listen ip6 : operation not permitted"))
        { Name := "ip6:58", Address := "" }
      = Except.error (GoError.base "listen ip6 : operation not permitted") :=
  (OpenRawConnection_error_propagation _ _).1 _ rfl

/-- Claim C7: whenever the underlying socket opens successfully (the address
may be empty, meaning wildcard), `OpenRawConnection` returns the handle
obtained by wrapping that socket in the IPv6-capable packet interface: the
single code path used for both address families. -/
theorem OpenRawConnection_success_wraps
    (lp : String → String → Except GoError packetgen.NetPacketConn)
    (c : packetgen.ConnectionConfig) (pc : packetgen.NetPacketConn)
    (h : lp c.Name c.Address = Except.ok pc) :
    packetgen.OpenRawConnection lp c = Except.ok (packetgen.ipv6NewPacketConn pc) := by
  simp [packetgen.OpenRawConnection, h]

/-- Witness for C7 at a concrete config with an empty (wildcard) address. -/
theorem OpenRawConnection_success_wraps_witness :
    packetgen.OpenRawConnection (fun _ _ => Except.ok ⟨0⟩)
        { Name := "ip4:1", Address := "" }
      = Except.ok (packetgen.ipv6NewPacketConn ⟨0⟩) :=
  OpenRawConnection_success_wraps _ _ _ rfl

/-- Claim C8: whenever a `dnsBlastJob` invocation reaches the engine start,
the `ClientID` of the engine configuration equals the `ClientID` of the
global settings, propagated unchanged. -/
theorem dnsBlastJob_clientID_propagated
    (gc : jobs.GlobalConfig) (dr : Except GoError jobs.dnsBlastConfig)
    (start : dnsblast.Config → Option GoError) (ec : dnsblast.Config)
    (h : (jobs.dnsBlastJob gc dr start).engineCall = some ec) :
    ec.ClientID = gc.ClientID := by
  cases dr with
  | error e => simp [jobs.dnsBlastJob] at h
  | ok jc =>
    simp only [jobs.dnsBlastJob] at h
    repeat' split at h
    all_goals
      first
      | (simp only [Option.some.injEq] at h; subst h; rfl)
      | simp at h

/-- Witness for C8 at a concrete run that reaches the engine. -/
theorem dnsBlastJob_clientID_propagated_witness :
    ({ RootDomain := "example.test", Protocol := "udp", SeedDomains := ["a"],
       ParallelQueries := 5, Delay := 10000000,
       ClientID := "client-42" } : dnsblast.Config).ClientID = "client-42" :=
  dnsBlastJob_clientID_propagated ⟨"client-42"⟩
    (.ok { IntervalMs := 0, RootDomain := "example.test", Protocol := "udp",
           SeedDomains := ["a"], ParallelQueries := 0 })
    (fun _ => none) _ rfl

/-- Claim C9: the `data` (first) return value of `dnsBlastJob` is nil on
every path: decode failure, each validation failure, and normal completion. -/
theorem dnsBlastJob_data_always_nil
    (gc : jobs.GlobalConfig) (dr : Except GoError jobs.dnsBlastConfig)
    (start : dnsblast.Config → Option GoError) :
    (jobs.dnsBlastJob gc dr start).data = none := by
  cases dr with
  | error e => rfl
  | ok jc =>
    simp only [jobs.dnsBlastJob]
    repeat' split
    all_goals rfl

/-- Claim C10: on every build platform other than linux, darwin and windows
(exactly where this build-tagged `Restart` is compiled in), `Restart` returns
a non-nil error whose message names the running operating system, for every
extra-argument list, and performs nothing else. -/
theorem Restart_unsupported_os (goos : String) (extraArgs : List String)
    (h1 : goos ≠ "linux") (h2 : goos ≠ "darwin") (h3 : goos ≠ "windows") :
    ota.Restart goos extraArgs
      = some (.base ("restart on the " ++ goos ++ " system is not available")) ∧
    (ota.Restart goos extraArgs).isSome = true :=
  ⟨rfl, rfl⟩

/-- Witness for C10 on the concrete platform string `plan9`. -/
theorem Restart_unsupported_os_witness :
    ota.Restart "plan9" ["-arg"]
      = some (.base ("restart on the " ++ "plan9" ++ " system is not available")) ∧
    (ota.Restart "plan9" ["-arg"]).isSome = true :=
  Restart_unsupported_os "plan9" ["-arg"] (by decide) (by decide) (by decide)
